import Mathlib

/-!
# Request builders of `pkg/capabilities/oci/verify_v2`

A shallow embedding of `verify_v2.go`: the five zero-field tag types with their
`MarshalJSON` methods, and the five builders that assemble a request value and
hand it to the host call `oci.Verify` together with `oci.V2`.

Conventions of the embedding

* a Go `string` is a Lean `String` (a sequence of code points; byte strings that
  are not valid UTF-8 are outside the model), a `[]byte` is a `List UInt8`;
* a Go slice is `Option (List α)`, where `none` is the `nil` slice and
  `some []` the empty non-nil one; a `map[string]string` is an optional list of
  key/value entries, `none` being the `nil` map;
* a Go `error` result is `Option GoError`, `none` being `nil`;
* the host call has effects, so it is a state-passing function over a state
  type `σ` chosen by the host; a builder is a function of the same shape;
* where the question is whether a builder keeps state of its own, the
  package-level variables of the package are a second, concrete piece of state
  (`PackageVars`) that a function of the package may read and assign.
-/

namespace verify_v2

/-! ## Go values -/

/-- A Go `error` value. The `nil` error is `none` in `Option GoError`. -/
structure GoError where
  msg : String
deriving DecidableEq, Repr

/-- A Go `[]byte`. -/
abbrev Bytes := List UInt8

/-- A Go slice: `none` is `nil`, `some xs` holds the elements in order. -/
abbrev Slice (α : Type) := Option (List α)

/-- A Go `map[string]string`: `none` is the `nil` map. The builders never look
inside it, so the entries are kept as given. -/
abbrev StringMap := Option (List (String × String))

/-- A Go `rune` (`int32`). The builders never inspect runes. -/
abbrev rune := Int

/-- The bytes of a Go string: the UTF-8 encoding of its code points. -/
def utf8Bytes (s : String) : Bytes :=
  s.toList.flatMap String.utf8EncodeChar

/-! ## `json.Marshal` on a string (Go standard library, `encoding/json`) -/

/-- The table `hex` of `encoding/json`. -/
def hexDigit (n : Nat) : Char :=
  "0123456789abcdef".toList.getD n '0'

/-- The table `htmlSafeSet` of `encoding/json`: the ASCII code points that are
copied verbatim. These are 0x20 .. 0x7f without the double quote (0x22),
ampersand (0x26), less-than (0x3c), greater-than (0x3e) and backslash (0x5c). -/
def htmlSafeSet (b : Nat) : Bool :=
  decide (0x20 ≤ b) && decide (b < 0x80) &&
    !(b == 0x22 || b == 0x26 || b == 0x3c || b == 0x3e || b == 0x5c)

/-- One step of the loop of `appendString` in `encoding/json` with HTML
escaping on (what `json.Marshal` uses): the output for one code point. -/
def jsonEscapeChar (c : Char) : List Char :=
  let b := c.toNat
  if b < 0x80 then
    if htmlSafeSet b then [c]
    else if b = 0x5c ∨ b = 0x22 then [Char.ofNat 0x5c, c]
    else if b = 0x08 then [Char.ofNat 0x5c, 'b']
    else if b = 0x0c then [Char.ofNat 0x5c, 'f']
    else if b = 0x0a then [Char.ofNat 0x5c, 'n']
    else if b = 0x0d then [Char.ofNat 0x5c, 'r']
    else if b = 0x09 then [Char.ofNat 0x5c, 't']
    else [Char.ofNat 0x5c, 'u', '0', '0', hexDigit (b / 16), hexDigit (b % 16)]
  else if b = 0x2028 ∨ b = 0x2029 then
    [Char.ofNat 0x5c, 'u', '2', '0', '2', hexDigit (b % 16)]
  else [c]

/-- The Go call `json.Marshal(s)` for a string `s`: an opening double quote, the
escaped code points, a closing double quote; the error is always `nil`. -/
def jsonMarshalString (s : String) : Bytes × Option GoError :=
  (utf8Bytes (String.mk ((Char.ofNat 0x22 :: s.toList.flatMap jsonEscapeChar) ++ [Char.ofNat 0x22])),
    none)

/-! ## The tag types (`verify_v2.go`, lines 10-38) -/

structure SigstorePubKeyVerifyType where
deriving DecidableEq, Repr

def SigstorePubKeyVerifyType.MarshalJSON (_e : SigstorePubKeyVerifyType) :
    Bytes × Option GoError :=
  jsonMarshalString "SigstorePubKeyVerify"

structure SigstoreKeylessVerifyType where
deriving DecidableEq, Repr

def SigstoreKeylessVerifyType.MarshalJSON (_e : SigstoreKeylessVerifyType) :
    Bytes × Option GoError :=
  jsonMarshalString "SigstoreKeylessVerify"

structure SigstoreKeylessPrefixVerifyType where
deriving DecidableEq, Repr

def SigstoreKeylessPrefixVerifyType.MarshalJSON (_e : SigstoreKeylessPrefixVerifyType) :
    Bytes × Option GoError :=
  jsonMarshalString "SigstoreKeylessPrefixVerify"

structure SigstoreGithubActionsVerifyType where
deriving DecidableEq, Repr

def SigstoreGithubActionsVerifyType.MarshalJSON (_e : SigstoreGithubActionsVerifyType) :
    Bytes × Option GoError :=
  jsonMarshalString "SigstoreGithubActionsVerify"

structure SigstoreCertificateVerifyType where
deriving DecidableEq, Repr

def SigstoreCertificateVerifyType.MarshalJSON (_e : SigstoreCertificateVerifyType) :
    Bytes × Option GoError :=
  jsonMarshalString "SigstoreCertificateVerify"

/-! ## Request payloads

The struct declarations live in a file of the package that is not part of the
sources at hand; the field names below are the ones the composite literals of
`verify_v2.go` use. -/

/-- Modelled from the spec: `oci.KeylessInfo`, declared in package `oci`, is an
issuer/subject pair from an OIDC provider. -/
structure KeylessInfo where
  Issuer : String
  Subject : String
deriving DecidableEq, Repr

/-- Modelled from the spec: `KeylessPrefixInfo`, whose declaration is missing,
is an issuer together with the prefix demanded of the signature subject. -/
structure KeylessPrefixInfo where
  Issuer : String
  UrlPrefix : String
deriving DecidableEq, Repr

/-- Modelled from the spec: the declaration of `SigstorePubKeysVerify` is
missing. It holds the zero-field tag that serializes as the `type` discriminant,
and the fields set at `verify_v2.go` lines 46-50. -/
structure SigstorePubKeysVerify where
  Type_ : SigstorePubKeyVerifyType := {}
  Image : String
  PubKeys : Slice String
  Annotations : StringMap
deriving DecidableEq, Repr

/-- Modelled from the spec: the declaration of `SigstoreKeylessVerifyExact` is
missing. Tag plus the fields set at `verify_v2.go` lines 61-65. -/
structure SigstoreKeylessVerifyExact where
  Type_ : SigstoreKeylessVerifyType := {}
  Image : String
  Keyless : Slice KeylessInfo
  Annotations : StringMap
deriving DecidableEq, Repr

/-- Modelled from the spec: the declaration of `SigstoreKeylessPrefixVerify` is
missing. Tag plus the fields set at `verify_v2.go` lines 79-83. -/
structure SigstoreKeylessPrefixVerify where
  Type_ : SigstoreKeylessPrefixVerifyType := {}
  Image : String
  KeylessPrefix : Slice KeylessPrefixInfo
  Annotations : StringMap
deriving DecidableEq, Repr

/-- Modelled from the spec: the declaration of `SigstoreGithubActionsVerify` is
missing. Tag plus the fields set at `verify_v2.go` lines 97-102. -/
structure SigstoreGithubActionsVerify where
  Type_ : SigstoreGithubActionsVerifyType := {}
  Image : String
  Owner : String
  Repo : String
  Annotations : StringMap
deriving DecidableEq, Repr

/-- Modelled from the spec: the declaration of `SigstoreCertificateVerify` is
missing. Tag plus the fields set at `verify_v2.go` lines 122-128. -/
structure SigstoreCertificateVerify where
  Type_ : SigstoreCertificateVerifyType := {}
  Image : String
  Certificate : Slice rune
  CertificateChain : Slice (Slice rune)
  RequireRekorBundle : Bool
  Annotations : StringMap
deriving DecidableEq, Repr

/-- The `interface{}` argument of `oci.Verify`, restricted to the five payload
types this package passes. -/
inductive VerificationRequest where
  | pubKeys (r : SigstorePubKeysVerify)
  | keylessExact (r : SigstoreKeylessVerifyExact)
  | keylessPrefix (r : SigstoreKeylessPrefixVerify)
  | githubActions (r : SigstoreGithubActionsVerify)
  | certificate (r : SigstoreCertificateVerify)
deriving DecidableEq, Repr

/-- The Go type name of the payload, as written in the composite literals of
`verify_v2.go` (lines 46, 61, 79, 97, 122). -/
def VerificationRequest.variantName : VerificationRequest → String
  | .pubKeys _ => "SigstorePubKeysVerify"
  | .keylessExact _ => "SigstoreKeylessVerifyExact"
  | .keylessPrefix _ => "SigstoreKeylessPrefixVerify"
  | .githubActions _ => "SigstoreGithubActionsVerify"
  | .certificate _ => "SigstoreCertificateVerify"

/-- The JSON of the `type` discriminant of a payload: what `MarshalJSON` of its
tag field returns. -/
def VerificationRequest.discriminant : VerificationRequest → Bytes × Option GoError
  | .pubKeys r => r.Type_.MarshalJSON
  | .keylessExact r => r.Type_.MarshalJSON
  | .keylessPrefix r => r.Type_.MarshalJSON
  | .githubActions r => r.Type_.MarshalJSON
  | .certificate r => r.Type_.MarshalJSON

/-- Modelled from the spec: the constants `oci.V1` and `oci.V2` of package
`oci`, the generations of the verification protocol. -/
inductive VerifyVersion where
  | V1
  | V2
deriving DecidableEq, Repr

/-! ## The host call

`oci.Verify` belongs to package `oci` and reaches the host over waPC. The
builders are given here for an arbitrary host call. -/

/-- The shape of `oci.Verify(h, requestObj, version)`: from the state of the
outside world before the call to the returned `(response, error)` pair and the
state after the call. -/
abbrev HostCall (Host Resp σ : Type) :=
  Host → VerificationRequest → VerifyVersion → σ → (Resp × Option GoError) × σ

/-- One entry of a call log: the request and the version of one `Verify` call. -/
abbrev CallLog := List (VerificationRequest × VerifyVersion)

/-- A host that appends every `Verify` call it receives to a log and otherwise
behaves as `Verify` does on its own state. -/
def recording {Host Resp τ : Type} (Verify : HostCall Host Resp τ) :
    HostCall Host Resp (τ × CallLog) :=
  fun h requestObj version s =>
    let out := Verify h requestObj version s.1
    (out.1, (out.2, s.2 ++ [(requestObj, version)]))

/-- A host call that behaves as a function of its arguments and has no state. -/
def stateless {Host Resp : Type}
    (f : Host → VerificationRequest → VerifyVersion → Resp × Option GoError) :
    HostCall Host Resp Unit :=
  fun h requestObj version _ => (f h requestObj version, ())

/-! ## The builders (`verify_v2.go`, lines 45-131) -/

def VerifyPubKeysImage {Host Resp σ : Type} (Verify : HostCall Host Resp σ) (h : Host)
    (image : String) (pubKeys : Slice String) (annotations : StringMap) :
    σ → (Resp × Option GoError) × σ :=
  let requestObj : SigstorePubKeysVerify :=
    { Image := image
      PubKeys := pubKeys
      Annotations := annotations }
  Verify h (.pubKeys requestObj) .V2

def VerifyKeylessExactMatch {Host Resp σ : Type} (Verify : HostCall Host Resp σ) (h : Host)
    (image : String) (keyless : Slice KeylessInfo) (annotations : StringMap) :
    σ → (Resp × Option GoError) × σ :=
  let requestObj : SigstoreKeylessVerifyExact :=
    { Image := image
      Keyless := keyless
      Annotations := annotations }
  Verify h (.keylessExact requestObj) .V2

def VerifyKeylessPrefixMatch {Host Resp σ : Type} (Verify : HostCall Host Resp σ) (h : Host)
    (image : String) (keylessPrefix : Slice KeylessPrefixInfo) (annotations : StringMap) :
    σ → (Resp × Option GoError) × σ :=
  let requestObj : SigstoreKeylessPrefixVerify :=
    { Image := image
      KeylessPrefix := keylessPrefix
      Annotations := annotations }
  Verify h (.keylessPrefix requestObj) .V2

def VerifyKeylessGithubActions {Host Resp σ : Type} (Verify : HostCall Host Resp σ) (h : Host)
    (image : String) (owner : String) (repo : String) (annotations : StringMap) :
    σ → (Resp × Option GoError) × σ :=
  let requestObj : SigstoreGithubActionsVerify :=
    { Image := image
      Owner := owner
      Repo := repo
      Annotations := annotations }
  Verify h (.githubActions requestObj) .V2

def VerifyCertificate {Host Resp σ : Type} (Verify : HostCall Host Resp σ) (h : Host)
    (image : String) (certificate : Slice rune) (certificateChain : Slice (Slice rune))
    (requireRekorBundle : Bool) (annotations : StringMap) :
    σ → (Resp × Option GoError) × σ :=
  let requestObj : SigstoreCertificateVerify :=
    { Image := image
      Certificate := certificate
      CertificateChain := certificateChain
      RequireRekorBundle := requireRekorBundle
      Annotations := annotations }
  Verify h (.certificate requestObj) .V2

/-! ## The builders as functions of the program

Besides calling the host, a Go function can read and assign the package-level
variables of its package; that is where a builder would keep a cache, a counter
or the outcome of an earlier call. Here the builders are given with these
variables as explicit state next to the state of the host. `oci.Verify` belongs
to package `oci`, which `verify_v2` imports, so it cannot name a variable of
`verify_v2`: the host call keeps the shape `HostCall` and the variables pass
through a call of it untouched. The bodies at `verify_v2.go` lines 45-131 neither
read nor assign a package-level variable. -/

/-- The package-level variables of package `verify_v2`: names with their current
values. `verify_v2.go` declares none; other files of the package may. -/
abbrev PackageVars := List (String × Int)

/-- The shape of a builder as a function of the program: from the package-level
variables and the state of the host before the call to the returned
`(response, error)` pair, the package-level variables after the call and the
state of the host after the call. -/
abbrev GoFunc (Resp σ : Type) :=
  PackageVars → σ → (Resp × Option GoError) × PackageVars × σ

def Program.VerifyPubKeysImage {Host Resp σ : Type} (Verify : HostCall Host Resp σ)
    (h : Host) (image : String) (pubKeys : Slice String) (annotations : StringMap) :
    GoFunc Resp σ :=
  fun vars s =>
    let requestObj : SigstorePubKeysVerify :=
      { Image := image
        PubKeys := pubKeys
        Annotations := annotations }
    let out := Verify h (.pubKeys requestObj) .V2 s
    (out.1, vars, out.2)

def Program.VerifyKeylessExactMatch {Host Resp σ : Type} (Verify : HostCall Host Resp σ)
    (h : Host) (image : String) (keyless : Slice KeylessInfo) (annotations : StringMap) :
    GoFunc Resp σ :=
  fun vars s =>
    let requestObj : SigstoreKeylessVerifyExact :=
      { Image := image
        Keyless := keyless
        Annotations := annotations }
    let out := Verify h (.keylessExact requestObj) .V2 s
    (out.1, vars, out.2)

def Program.VerifyKeylessPrefixMatch {Host Resp σ : Type} (Verify : HostCall Host Resp σ)
    (h : Host) (image : String) (keylessPrefix : Slice KeylessPrefixInfo)
    (annotations : StringMap) : GoFunc Resp σ :=
  fun vars s =>
    let requestObj : SigstoreKeylessPrefixVerify :=
      { Image := image
        KeylessPrefix := keylessPrefix
        Annotations := annotations }
    let out := Verify h (.keylessPrefix requestObj) .V2 s
    (out.1, vars, out.2)

def Program.VerifyKeylessGithubActions {Host Resp σ : Type}
    (Verify : HostCall Host Resp σ) (h : Host) (image : String) (owner : String)
    (repo : String) (annotations : StringMap) : GoFunc Resp σ :=
  fun vars s =>
    let requestObj : SigstoreGithubActionsVerify :=
      { Image := image
        Owner := owner
        Repo := repo
        Annotations := annotations }
    let out := Verify h (.githubActions requestObj) .V2 s
    (out.1, vars, out.2)

def Program.VerifyCertificate {Host Resp σ : Type} (Verify : HostCall Host Resp σ)
    (h : Host) (image : String) (certificate : Slice rune)
    (certificateChain : Slice (Slice rune)) (requireRekorBundle : Bool)
    (annotations : StringMap) : GoFunc Resp σ :=
  fun vars s =>
    let requestObj : SigstoreCertificateVerify :=
      { Image := image
        Certificate := certificate
        CertificateChain := certificateChain
        RequireRekorBundle := requireRekorBundle
        Annotations := annotations }
    let out := Verify h (.certificate requestObj) .V2 s
    (out.1, vars, out.2)

/-! ## Vocabulary of the statements -/

/-- The bytes of the JSON string with content `name` when nothing in `name`
needs escaping: a double quote, the bytes of `name`, a double quote. -/
def quoted (name : String) : Bytes :=
  utf8Bytes ("\"" ++ name ++ "\"")

/-- A call of one of the five builders with its arguments (all but the host
handle, which every builder takes). -/
inductive Invocation where
  | pubKeysImage (image : String) (pubKeys : Slice String) (annotations : StringMap)
  | keylessExactMatch (image : String) (keyless : Slice KeylessInfo) (annotations : StringMap)
  | keylessPrefixMatch (image : String) (keylessPrefix : Slice KeylessPrefixInfo)
      (annotations : StringMap)
  | keylessGithubActions (image : String) (owner : String) (repo : String)
      (annotations : StringMap)
  | certificate (image : String) (certificate : Slice rune)
      (certificateChain : Slice (Slice rune)) (requireRekorBundle : Bool)
      (annotations : StringMap)
deriving DecidableEq, Repr

/-- Running an invocation: the builder it names, applied to its arguments. -/
def Invocation.run {Host Resp σ : Type} (Verify : HostCall Host Resp σ) (h : Host) :
    Invocation → σ → (Resp × Option GoError) × σ
  | .pubKeysImage image pubKeys annotations =>
      VerifyPubKeysImage Verify h image pubKeys annotations
  | .keylessExactMatch image keyless annotations =>
      VerifyKeylessExactMatch Verify h image keyless annotations
  | .keylessPrefixMatch image keylessPrefix annotations =>
      VerifyKeylessPrefixMatch Verify h image keylessPrefix annotations
  | .keylessGithubActions image owner repo annotations =>
      VerifyKeylessGithubActions Verify h image owner repo annotations
  | .certificate image cert certificateChain requireRekorBundle annotations =>
      VerifyCertificate Verify h image cert certificateChain requireRekorBundle annotations

/-- Running an invocation as a function of the program: the builder it names,
applied to its arguments, over the package-level variables and the host state. -/
def Invocation.exec {Host Resp σ : Type} (Verify : HostCall Host Resp σ) (h : Host) :
    Invocation → GoFunc Resp σ
  | .pubKeysImage image pubKeys annotations =>
      Program.VerifyPubKeysImage Verify h image pubKeys annotations
  | .keylessExactMatch image keyless annotations =>
      Program.VerifyKeylessExactMatch Verify h image keyless annotations
  | .keylessPrefixMatch image keylessPrefix annotations =>
      Program.VerifyKeylessPrefixMatch Verify h image keylessPrefix annotations
  | .keylessGithubActions image owner repo annotations =>
      Program.VerifyKeylessGithubActions Verify h image owner repo annotations
  | .certificate image cert certificateChain requireRekorBundle annotations =>
      Program.VerifyCertificate Verify h image cert certificateChain requireRekorBundle
        annotations

/-- The request the specification prescribes for an invocation: the variant of
the builder's kind, each field holding the argument of the same name. -/
def Invocation.specRequest : Invocation → VerificationRequest
  | .pubKeysImage image pubKeys annotations =>
      .pubKeys ⟨{}, image, pubKeys, annotations⟩
  | .keylessExactMatch image keyless annotations =>
      .keylessExact ⟨{}, image, keyless, annotations⟩
  | .keylessPrefixMatch image keylessPrefix annotations =>
      .keylessPrefix ⟨{}, image, keylessPrefix, annotations⟩
  | .keylessGithubActions image owner repo annotations =>
      .githubActions ⟨{}, image, owner, repo, annotations⟩
  | .certificate image cert certificateChain requireRekorBundle annotations =>
      .certificate ⟨{}, image, cert, certificateChain, requireRekorBundle, annotations⟩

/-- A host function that trusts every image. -/
def trustingHost : Unit → VerificationRequest → VerifyVersion → Bool × Option GoError :=
  fun _ _ _ => (true, none)

/-- The subject prefixes a keyless-prefix payload carries, in order. -/
def SigstoreKeylessPrefixVerify.subjectPrefixes (r : SigstoreKeylessPrefixVerify) :
    Slice String :=
  r.KeylessPrefix.map (List.map KeylessPrefixInfo.UrlPrefix)

/-! ## Discriminants -/

/-- C1, as stated, fails: for the image `registry.testing.lan/busybox:1.0.0` and
the key `key`, the one request handed to `Verify` by `VerifyPubKeysImage` holds
that image and that key, but its discriminant JSON is not the string
`"SigstorePubKeysVerify"`. -/
theorem VerifyPubKeysImage_discriminant_differs :
    (VerifyPubKeysImage (recording (stateless trustingHost)) ()
        "registry.testing.lan/busybox:1.0.0" (some ["key"]) none ((), [])).2.2
      = [(.pubKeys ⟨{}, "registry.testing.lan/busybox:1.0.0", some ["key"], none⟩, .V2)] ∧
    (VerificationRequest.pubKeys
        ⟨{}, "registry.testing.lan/busybox:1.0.0", some ["key"], none⟩).discriminant.1
      ≠ quoted "SigstorePubKeysVerify" := by
  refine ⟨rfl, ?_⟩
  decide

/-- C1, amended: for every image `i` and public key `k`, the request that
`VerifyPubKeysImage(h, i, [k], annotations)` hands to `Verify` is a
`SigstorePubKeysVerify` payload whose image is `i`, whose key list is exactly
`[k]`, and whose discriminant JSON is, with no error, the string
`"SigstorePubKeyVerify"`. -/
theorem VerifyPubKeysImage_payload {Host Resp τ : Type} (Verify : HostCall Host Resp τ)
    (h : Host) (i k : String) (annotations : StringMap) (s : τ) (log : CallLog) :
    ∃ r : SigstorePubKeysVerify,
      (VerifyPubKeysImage (recording Verify) h i (some [k]) annotations (s, log)).2.2
        = log ++ [(.pubKeys r, .V2)] ∧
      (VerificationRequest.pubKeys r).variantName = "SigstorePubKeysVerify" ∧
      r.Type_.MarshalJSON = (quoted "SigstorePubKeyVerify", none) ∧
      (VerificationRequest.pubKeys r).discriminant = (quoted "SigstorePubKeyVerify", none) ∧
      r.Image = i ∧ r.PubKeys = some [k] ∧ r.Annotations = annotations := by
  refine ⟨⟨{}, i, some [k], annotations⟩, rfl, rfl, ?_, ?_, rfl, rfl, rfl⟩
  · show jsonMarshalString "SigstorePubKeyVerify" = _
    decide
  · show jsonMarshalString "SigstorePubKeyVerify" = _
    decide

/-- C2, as stated, fails: `SigstoreKeylessVerifyType.MarshalJSON` does not return
the JSON string `"SigstoreKeylessVerifyExact"`, and the discriminant of the
request `VerifyKeylessExactMatch` constructs is not the double-quoted name of
that request's variant. -/
theorem SigstoreKeylessVerifyType_MarshalJSON_differs :
    (SigstoreKeylessVerifyType.MarshalJSON {}).1 ≠ quoted "SigstoreKeylessVerifyExact" ∧
    (VerifyKeylessExactMatch (recording (stateless trustingHost)) ()
        "registry.testing.lan/busybox:1.0.0" (some [⟨"issuer", "subject"⟩]) none ((), [])).2.2
      = [(.keylessExact ⟨{}, "registry.testing.lan/busybox:1.0.0",
            some [⟨"issuer", "subject"⟩], none⟩, .V2)] ∧
    (VerificationRequest.keylessExact ⟨{}, "registry.testing.lan/busybox:1.0.0",
        some [⟨"issuer", "subject"⟩], none⟩).discriminant.1
      ≠ quoted (VerificationRequest.keylessExact ⟨{}, "registry.testing.lan/busybox:1.0.0",
          some [⟨"issuer", "subject"⟩], none⟩).variantName := by
  refine ⟨?_, rfl, ?_⟩
  · decide
  · decide

/-- C2, amended: `SigstoreKeylessVerifyType.MarshalJSON` returns, with no error,
the JSON string `"SigstoreKeylessVerify"`; this is the discriminant of the
request `VerifyKeylessExactMatch` constructs, whose variant is named
`SigstoreKeylessVerifyExact`. -/
theorem SigstoreKeylessVerifyType_MarshalJSON_eq {Host Resp τ : Type}
    (e : SigstoreKeylessVerifyType) (Verify : HostCall Host Resp τ) (h : Host)
    (image : String) (keyless : Slice KeylessInfo) (annotations : StringMap) (s : τ)
    (log : CallLog) :
    e.MarshalJSON = (quoted "SigstoreKeylessVerify", none) ∧
    ∃ r : SigstoreKeylessVerifyExact,
      (VerifyKeylessExactMatch (recording Verify) h image keyless annotations (s, log)).2.2
        = log ++ [(.keylessExact r, .V2)] ∧
      (VerificationRequest.keylessExact r).variantName = "SigstoreKeylessVerifyExact" ∧
      (VerificationRequest.keylessExact r).discriminant
        = (quoted "SigstoreKeylessVerify", none) := by
  refine ⟨?_, ⟨{}, image, keyless, annotations⟩, rfl, rfl, ?_⟩
  · show jsonMarshalString "SigstoreKeylessVerify" = _
    decide
  · show jsonMarshalString "SigstoreKeylessVerify" = _
    decide

/-- C3: for each of the tag types `SigstoreKeylessPrefixVerifyType`,
`SigstoreGithubActionsVerifyType` and `SigstoreCertificateVerifyType`,
`MarshalJSON` returns no error and exactly the bytes of the double-quoted
variant name: a double quote, the name, a double quote. -/
theorem MarshalJSON_remaining_tags (e₁ : SigstoreKeylessPrefixVerifyType)
    (e₂ : SigstoreGithubActionsVerifyType) (e₃ : SigstoreCertificateVerifyType) :
    e₁.MarshalJSON = (quoted "SigstoreKeylessPrefixVerify", none) ∧
    e₂.MarshalJSON = (quoted "SigstoreGithubActionsVerify", none) ∧
    e₃.MarshalJSON = (quoted "SigstoreCertificateVerify", none) ∧
    e₁.MarshalJSON.1.length = "SigstoreKeylessPrefixVerify".length + 2 ∧
    e₂.MarshalJSON.1.length = "SigstoreGithubActionsVerify".length + 2 ∧
    e₃.MarshalJSON.1.length = "SigstoreCertificateVerify".length + 2 := by
  cases e₁
  cases e₂
  cases e₃
  refine ⟨?_, ?_, ?_, ?_, ?_, ?_⟩ <;> decide

/-- C9: the five discriminants are pairwise distinct byte strings, and none of
them is a prefix of another. -/
theorem discriminants_pairwise_distinct :
    List.Pairwise (fun a b : Bytes => a ≠ b ∧ ¬ a <+: b ∧ ¬ b <+: a)
      [(SigstorePubKeyVerifyType.MarshalJSON {}).1,
       (SigstoreKeylessVerifyType.MarshalJSON {}).1,
       (SigstoreKeylessPrefixVerifyType.MarshalJSON {}).1,
       (SigstoreGithubActionsVerifyType.MarshalJSON {}).1,
       (SigstoreCertificateVerifyType.MarshalJSON {}).1] := by
  decide

/-! ## The builders and the host call -/

/-- C4: no builder generates or translates an error. For every host call
`Verify`, every builder and every input, the returned `(response, error)` pair
and the state left behind are exactly those of `Verify` on the constructed
request with `V2`; the builder returns an error exactly when `Verify` does, and
then the same error. -/
theorem builders_return_what_Verify_returns {Host Resp σ : Type}
    (Verify : HostCall Host Resp σ) (h : Host) (inv : Invocation) (s : σ) :
    inv.run Verify h s = Verify h inv.specRequest .V2 s ∧
    (inv.run Verify h s).1.1 = (Verify h inv.specRequest .V2 s).1.1 ∧
    (inv.run Verify h s).1.2 = (Verify h inv.specRequest .V2 s).1.2 ∧
    ((inv.run Verify h s).1.2 = none ↔ (Verify h inv.specRequest .V2 s).1.2 = none) ∧
    (∀ e : GoError,
      (inv.run Verify h s).1.2 = some e ↔ (Verify h inv.specRequest .V2 s).1.2 = some e) := by
  have key : inv.run Verify h s = Verify h inv.specRequest .V2 s := by
    cases inv <;> rfl
  refine ⟨key, ?_, ?_, ?_, ?_⟩
  · rw [key]
  · rw [key]
  · rw [key]
  · intro e
    rw [key]

/-- C5: every builder constructs the request variant of its own kind and copies
the arguments of the caller into it unchanged, whatever they are (an empty
image, `nil` or empty lists and a `nil` annotations map included): the one
request a recording host receives is the variant with each field equal to the
argument of the same name. -/
theorem builders_copy_arguments {Host Resp τ : Type} (Verify : HostCall Host Resp τ)
    (h : Host) (s : τ) (log : CallLog) (image owner repo : String)
    (pubKeys : Slice String) (keyless : Slice KeylessInfo)
    (keylessPrefix : Slice KeylessPrefixInfo) (cert : Slice rune)
    (certificateChain : Slice (Slice rune)) (requireRekorBundle : Bool)
    (annotations : StringMap) :
    (VerifyPubKeysImage (recording Verify) h image pubKeys annotations (s, log)).2.2
      = log ++ [(.pubKeys
          { Type_ := {}, Image := image, PubKeys := pubKeys, Annotations := annotations },
          .V2)] ∧
    (VerifyKeylessExactMatch (recording Verify) h image keyless annotations (s, log)).2.2
      = log ++ [(.keylessExact
          { Type_ := {}, Image := image, Keyless := keyless, Annotations := annotations },
          .V2)] ∧
    (VerifyKeylessPrefixMatch (recording Verify) h image keylessPrefix annotations (s, log)).2.2
      = log ++ [(.keylessPrefix
          { Type_ := {}, Image := image, KeylessPrefix := keylessPrefix,
            Annotations := annotations },
          .V2)] ∧
    (VerifyKeylessGithubActions (recording Verify) h image owner repo annotations (s, log)).2.2
      = log ++ [(.githubActions
          { Type_ := {}, Image := image, Owner := owner, Repo := repo,
            Annotations := annotations },
          .V2)] ∧
    (VerifyCertificate (recording Verify) h image cert certificateChain requireRekorBundle
        annotations (s, log)).2.2
      = log ++ [(.certificate
          { Type_ := {}, Image := image, Certificate := cert,
            CertificateChain := certificateChain,
            RequireRekorBundle := requireRekorBundle, Annotations := annotations },
          .V2)] :=
  ⟨rfl, rfl, rfl, rfl, rfl⟩

/-- C6: the protocol version passed to `Verify` is the constant `V2` in all five
builders: for every builder and every input, the versions a recording host has
seen after the invocation are those it had seen before followed by `V2`. -/
theorem builders_pass_V2 {Host Resp τ : Type} (Verify : HostCall Host Resp τ) (h : Host)
    (inv : Invocation) (s : τ) (log : CallLog) :
    (inv.run (recording Verify) h (s, log)).2.2.map Prod.snd
      = log.map Prod.snd ++ [VerifyVersion.V2] := by
  cases inv <;> simp [Invocation.run, VerifyPubKeysImage, VerifyKeylessExactMatch,
    VerifyKeylessPrefixMatch, VerifyKeylessGithubActions, VerifyCertificate, recording]

/-- C7: each builder invocation makes exactly one outbound call. Against a host
that logs every `Verify` call, for every builder and every input, the log after
the invocation is the log before it extended by exactly one entry, the
constructed request with `V2`, and the state of the host itself is the one that
single call leaves; this holds whatever `Verify` returns. -/
theorem builders_call_Verify_once {Host Resp τ : Type} (Verify : HostCall Host Resp τ)
    (h : Host) (inv : Invocation) (s : τ) (log : CallLog) :
    (inv.run (recording Verify) h (s, log)).2.2 = log ++ [(inv.specRequest, .V2)] ∧
    (inv.run (recording Verify) h (s, log)).2.2.length = log.length + 1 ∧
    (inv.run (recording Verify) h (s, log)).2.1 = (Verify h inv.specRequest .V2 s).2 ∧
    (inv.run (recording Verify) h (s, log)).1 = (Verify h inv.specRequest .V2 s).1 := by
  have key : (inv.run (recording Verify) h (s, log)).2.2
      = log ++ [(inv.specRequest, .V2)] := by
    cases inv <;> rfl
  refine ⟨key, ?_, ?_, ?_⟩
  · rw [key]
    simp
  · cases inv <;> rfl
  · cases inv <;> rfl

/-- C8: the doc comment of `VerifyKeylessPrefixMatch` says the provided subject
is sanitized by appending `/`, and the claim says the request that reaches
`Verify` carries the subject with `/` appended. The code does not do so: for the
entry with subject `https://github.com/kubewarden` the one request handed to
`Verify` carries the subject prefix `https://github.com/kubewarden`, not
`https://github.com/kubewarden/`. -/
theorem VerifyKeylessPrefixMatch_appends_nothing :
    (VerifyKeylessPrefixMatch (recording (stateless trustingHost)) ()
        "registry.testing.lan/busybox:1.0.0"
        (some [⟨"https://token.actions.githubusercontent.com",
                "https://github.com/kubewarden"⟩]) none ((), [])).2.2
      = [(.keylessPrefix ⟨{}, "registry.testing.lan/busybox:1.0.0",
            some [⟨"https://token.actions.githubusercontent.com",
                   "https://github.com/kubewarden"⟩], none⟩, .V2)] ∧
    (SigstoreKeylessPrefixVerify.subjectPrefixes ⟨{}, "registry.testing.lan/busybox:1.0.0",
        some [⟨"https://token.actions.githubusercontent.com",
               "https://github.com/kubewarden"⟩], none⟩)
      = some ["https://github.com/kubewarden"] ∧
    (SigstoreKeylessPrefixVerify.subjectPrefixes ⟨{}, "registry.testing.lan/busybox:1.0.0",
        some [⟨"https://token.actions.githubusercontent.com",
               "https://github.com/kubewarden"⟩], none⟩)
      ≠ some ["https://github.com/kubewarden" ++ "/"] := by
  refine ⟨rfl, rfl, ?_⟩
  decide

/-- C10: the builders are stateless and deterministic. Every builder leaves the
package-level variables as it found them, and what it returns, the state it
leaves the host in and the request and version it passes do not depend on
them, whatever the host call does; with the variables left out it is the
builder of the section above. Against a host call that behaves as a
function `f`, the result is `f` of the constructed request and `V2` whatever
the variables hold and whatever was called before; right after an arbitrary
earlier invocation the outcome is the same as without it; and two invocations
with equal arguments in a row return equal results and pass the same request
and version twice. -/
theorem builders_keep_no_state {Host Resp τ : Type} (Verify : HostCall Host Resp τ)
    (f : Host → VerificationRequest → VerifyVersion → Resp × Option GoError) (h : Host)
    (inv earlier : Invocation) (vars vars2 : PackageVars) (s : τ) (log log2 : CallLog) :
    (inv.exec (recording Verify) h vars (s, log)).2.1 = vars ∧
    (inv.exec Verify h vars s).1 = (inv.run Verify h s).1 ∧
    (inv.exec Verify h vars s).2.2 = (inv.run Verify h s).2 ∧
    (inv.exec (recording Verify) h vars (s, log)).1
      = (inv.exec (recording Verify) h vars2 (s, log2)).1 ∧
    (inv.exec (recording Verify) h vars (s, log)).2.2.1
      = (inv.exec (recording Verify) h vars2 (s, log2)).2.2.1 ∧
    (inv.exec (recording Verify) h vars (s, log)).2.2.2 = log ++ [(inv.specRequest, .V2)] ∧
    (inv.exec (recording Verify) h vars2 (s, log2)).2.2.2
      = log2 ++ [(inv.specRequest, .V2)] ∧
    (inv.exec (recording (stateless f)) h vars ((), log)).1 = f h inv.specRequest .V2 ∧
    (inv.exec (recording (stateless f)) h vars ((), log)).1
      = (inv.exec (recording (stateless f)) h vars2 ((), log2)).1 ∧
    (inv.exec (recording (stateless f)) h
        (earlier.exec (recording (stateless f)) h vars ((), log)).2.1
        (earlier.exec (recording (stateless f)) h vars ((), log)).2.2).1
      = (inv.exec (recording (stateless f)) h vars ((), log)).1 ∧
    (inv.exec (recording (stateless f)) h
        (earlier.exec (recording (stateless f)) h vars ((), log)).2.1
        (earlier.exec (recording (stateless f)) h vars ((), log)).2.2).2
      = (vars, (), log ++ [(earlier.specRequest, .V2), (inv.specRequest, .V2)]) ∧
    (inv.exec (recording (stateless f)) h
        (inv.exec (recording (stateless f)) h vars ((), log)).2.1
        (inv.exec (recording (stateless f)) h vars ((), log)).2.2).1
      = (inv.exec (recording (stateless f)) h vars ((), log)).1 ∧
    (inv.exec (recording (stateless f)) h
        (inv.exec (recording (stateless f)) h vars ((), log)).2.1
        (inv.exec (recording (stateless f)) h vars ((), log)).2.2).2
      = (vars, (), log ++ [(inv.specRequest, .V2), (inv.specRequest, .V2)]) := by
  have exec_eq : ∀ (i : Invocation) (v : PackageVars) (t : τ) (l : CallLog),
      i.exec (recording Verify) h v (t, l)
        = ((Verify h i.specRequest .V2 t).1, v,
            (Verify h i.specRequest .V2 t).2, l ++ [(i.specRequest, .V2)]) := by
    intro i v t l
    cases i <;> rfl
  have exec_f : ∀ (i : Invocation) (v : PackageVars) (st : Unit × CallLog),
      i.exec (recording (stateless f)) h v st
        = (f h i.specRequest .V2, v, (), st.2 ++ [(i.specRequest, .V2)]) := by
    intro i v st
    cases i <;> rfl
  refine ⟨by simp [exec_eq], by cases inv <;> rfl, by cases inv <;> rfl, ?_⟩
  simp [exec_eq, exec_f]

end verify_v2
